import Mathlib

/-!
Verification of the CitySim simulation and grid-state engine.

Shallow embedding of the TypeScript sources:
  * `src/types.ts`     — `TileType`, `Tile`
  * `src/citymap.ts`   — `CityMap`, accessors, mutators, power flood fill
  * `src/simulation.ts`— per-tick growth/income rules
  * `src/game.ts`      — happiness, traffic, power-plant build/demolish

JavaScript `number`s holding integer quantities (population, development,
traffic, money) are embedded as `Int`; fractional quantities (happiness,
income, random rolls in `[0,1)`) as `Rat`.  `Math.random()` draws are passed
in explicitly as parameters constrained to `[0,1)`.
-/

/-- Tile categories, from `types.ts` (`enum TileType`). -/
inductive TileType where
  | empty
  | residential
  | commercial
  | industrial
  | road
  | powerPlant
  | powerLine
  | park
  | hospital
  | police
  | school
  | library
deriving DecidableEq, Repr

/-- Traffic-light phase at road intersections, from `types.ts`. -/
inductive TrafficLightState where
  | redNS
  | redEW
deriving DecidableEq, Repr

/-- One grid cell, from `types.ts` (`interface Tile`).  `trafficLight` is the
optional field (`undefined` embedded as `none`). -/
@[ext]
structure Tile where
  type : TileType
  powered : Bool
  development : Int
  population : Int
  variant : Nat
  powerLine : Bool
  traffic : Int
  trafficLight : Option TrafficLightState
deriving DecidableEq, Repr

/-- The city grid, from `citymap.ts`.  The backing 2-D array `map[y][x]` is
embedded as a total function on integer coordinates; only coordinates inside
`[0,width) × [0,height)` are meaningful, exactly the ones `isValidPosition`
accepts.  `powerGrid` is the `Set<string>` of powered coordinates, embedded as
a `Finset` of coordinate pairs. -/
@[ext]
structure CityMap where
  width : Nat
  height : Nat
  map : Int → Int → Tile
  powerGrid : Finset (Int × Int)

namespace CityMap

/-- `isValidPosition` from `citymap.ts`. -/
def isValidPosition (g : CityMap) (x y : Int) : Prop :=
  0 ≤ x ∧ x < (g.width : Int) ∧ 0 ≤ y ∧ y < (g.height : Int)

instance (g : CityMap) (x y : Int) : Decidable (g.isValidPosition x y) := by
  unfold isValidPosition; infer_instance

/-- `createEmptyMap`/constructor from `citymap.ts`: all tiles `EMPTY`,
unpowered, zero development/population/traffic, no power line.  The cosmetic
random `variant` is supplied by the parameter `variantOf`. -/
def createEmptyMap (width height : Nat) (variantOf : Int → Int → Nat) : CityMap :=
  { width := width
    height := height
    map := fun y x =>
      { type := TileType.empty
        powered := false
        development := 0
        population := 0
        variant := variantOf x y
        powerLine := false
        traffic := 0
        trafficLight := none }
    powerGrid := ∅ }

/-- `getTile` from `citymap.ts`: `null` (here `none`) on invalid coordinates. -/
def getTile (g : CityMap) (x y : Int) : Option Tile :=
  if g.isValidPosition x y then some (g.map y x) else none

/-- `setTileType` from `citymap.ts`: returns `false` and leaves the grid
unchanged on invalid coordinates; resets `development` and `population` to 0
when the new type is `EMPTY`. -/
def setTileType (g : CityMap) (x y : Int) (ty : TileType) : Bool × CityMap :=
  if g.isValidPosition x y then
    (true,
      { g with map := fun y' x' =>
          if y' = y ∧ x' = x then
            let t := g.map y x
            if ty = TileType.empty then
              { t with type := ty, development := 0, population := 0 }
            else
              { t with type := ty }
          else g.map y' x' })
  else (false, g)

/-- `setPowerLine` from `citymap.ts`. -/
def setPowerLine (g : CityMap) (x y : Int) (hasPowerLine : Bool) : Bool × CityMap :=
  if g.isValidPosition x y then
    (true,
      { g with map := fun y' x' =>
          if y' = y ∧ x' = x then { g.map y x with powerLine := hasPowerLine }
          else g.map y' x' })
  else (false, g)

/-- `hasAdjacentRoad` from `citymap.ts`: 4-neighbour Von Neumann check. -/
def hasAdjacentRoad (g : CityMap) (x y : Int) : Prop :=
  (g.isValidPosition (x - 1) y ∧ (g.map y (x - 1)).type = TileType.road) ∨
  (g.isValidPosition (x + 1) y ∧ (g.map y (x + 1)).type = TileType.road) ∨
  (g.isValidPosition x (y - 1) ∧ (g.map (y - 1) x).type = TileType.road) ∨
  (g.isValidPosition x (y + 1) ∧ (g.map (y + 1) x).type = TileType.road)

instance (g : CityMap) (x y : Int) : Decidable (g.hasAdjacentRoad x y) := by
  unfold hasAdjacentRoad; infer_instance

/-- The row-major list of all valid coordinates, the iteration space of all
`for (y) for (x)` loops over the grid. -/
def cellsList (g : CityMap) : List (Int × Int) :=
  (List.range g.height).flatMap fun y =>
    (List.range g.width).map fun x => ((x : Int), (y : Int))

/-- `calculatePopulation` from `citymap.ts`: sum of `population` over the
whole grid. -/
def calculatePopulation (g : CityMap) : Int :=
  ((g.cellsList).map fun c => (g.map c.2 c.1).population).sum

/-- Conduction predicate from `updatePowerGrid` in `citymap.ts`
(`canConduct`): a tile conducts power if it carries the power-line overlay or
its type is Residential/Commercial/Industrial. -/
def CanConduct (t : Tile) : Prop :=
  t.powerLine = true ∨ t.type = TileType.residential ∨
    t.type = TileType.commercial ∨ t.type = TileType.industrial

instance : DecidablePred CanConduct := fun t => by
  unfold CanConduct; infer_instance

def cellsFinset (g : CityMap) : Finset (Int × Int) := g.cellsList.toFinset

/-- The power sources of `updatePowerGrid`: every tile of type `POWER_PLANT`
(each footprint cell is its own source and is marked powered). -/
def sources (g : CityMap) : Finset (Int × Int) :=
  g.cellsFinset.filter fun p => (g.map p.2 p.1).type = TileType.powerPlant

/-- One expansion round of the flood fill in `updatePowerGrid`: a valid cell
joins when it conducts and one of its 4 orthogonal neighbours is already in
the set. -/
def poweredStep (g : CityMap) (s : Finset (Int × Int)) : Finset (Int × Int) :=
  s ∪ g.cellsFinset.filter fun p =>
    CanConduct (g.map p.2 p.1) ∧
      ((p.1 - 1, p.2) ∈ s ∨ (p.1 + 1, p.2) ∈ s ∨
        (p.1, p.2 - 1) ∈ s ∨ (p.1, p.2 + 1) ∈ s)

/-- The set computed by the BFS flood fill of `updatePowerGrid`: the closure
of the sources under the expansion round.  `width * height` rounds reach the
closure since the set grows inside the cell universe. -/
def poweredSet (g : CityMap) : Finset (Int × Int) :=
  (g.poweredStep)^[g.width * g.height] g.sources

/-- `updatePowerGrid` from `citymap.ts`: full recomputation — every valid
tile's `powered` flag becomes membership in the flood-fill result, and the
`powerGrid` set is replaced by that result. -/
def updatePowerGrid (g : CityMap) : CityMap :=
  { g with
    map := fun y x =>
      if g.isValidPosition x y then
        { g.map y x with powered := decide ((x, y) ∈ g.poweredSet) }
      else g.map y x
    powerGrid := g.poweredSet }

end CityMap

/-- `Math.floor` on an (idealised, exact-rational) JS number. -/
def jsFloor (q : ℚ) : Int := q.floor

/-- `Math.ceil` on an (idealised, exact-rational) JS number. -/
def jsCeil (q : ℚ) : Int := q.ceil

/-- The `Math.random()` draws one simulation of a single tile may consume, in
the order `simulateResidential` consumes them: emigration check, emigration
loss, development-growth check, population-drift check, drift increment.
`simulateCommercial`/`simulateIndustrial` consume a single draw (`devRoll`). -/
structure TileRand where
  declineRoll : ℚ
  lossRoll : ℚ
  devRoll : ℚ
  driftRoll : ℚ
  incRoll : ℚ

/-- Every draw of `Math.random()` lies in `[0, 1)`. -/
def TileRand.Valid (r : TileRand) : Prop :=
  (0 ≤ r.declineRoll ∧ r.declineRoll < 1) ∧ (0 ≤ r.lossRoll ∧ r.lossRoll < 1) ∧
    (0 ≤ r.devRoll ∧ r.devRoll < 1) ∧ (0 ≤ r.driftRoll ∧ r.driftRoll < 1) ∧
    (0 ≤ r.incRoll ∧ r.incRoll < 1)

instance (r : TileRand) : Decidable r.Valid := by
  unfold TileRand.Valid; infer_instance

namespace SimulationEngine

/-- The emigration loss drawn in `simulateResidential`
(`Math.floor(Math.random() * 10) + 5`). -/
def declineLoss (q : ℚ) : Int := jsFloor (q * 10) + 5

/-- The drift increment drawn in `simulateResidential`
(`Math.floor(Math.random() * 5) + 1`). -/
def driftInc (q : ℚ) : Int := jsFloor (q * 5) + 1

/-- Emigration step of `simulateResidential` (simulation.ts lines 44-57): if
happiness is below 40 and the tile is inhabited, with probability
`(40 - happiness) / 200` remove `floor(rand*10)+5` inhabitants (floored at 0)
and, if the population then falls under the previous development level's
threshold (and development is positive), lower `development` by one. -/
def declinePhase (t : Tile) (happiness roll lossRoll : ℚ) : Tile :=
  if happiness < 40 ∧ 0 < t.population then
    if roll < (40 - happiness) / 200 then
      if max 0 (t.population - declineLoss lossRoll) <
          10 + (t.development - 1) * 50 ∧ 0 < t.development then
        { t with population := max 0 (t.population - declineLoss lossRoll),
                 development := max 0 (t.development - 1) }
      else
        { t with population := max 0 (t.population - declineLoss lossRoll) }
    else t
  else t

/-- Seeding step of `simulateResidential` (lines 59-62): an empty tile with
road and power and happiness at least 30 receives the base population 10. -/
def seedPhase (t : Tile) (hasRoad : Bool) (happiness : ℚ) : Tile :=
  if t.population = 0 ∧ hasRoad = true ∧ t.powered = true ∧ 30 ≤ happiness then
    { t with population := 10 }
  else t

/-- Development step of `simulateResidential` (lines 64-70): with road,
power, development below 3 and happiness at least 50, with probability 0.05
raise development and set population to the new ceiling. -/
def growthPhase (t : Tile) (hasRoad : Bool) (happiness roll : ℚ) : Tile :=
  if hasRoad = true ∧ t.powered = true ∧ t.development < 3 ∧ 50 ≤ happiness ∧
      roll < 5 / 100 then
    { t with development := t.development + 1,
             population := 10 + (t.development + 1) * 50 }
  else t

/-- Drift step of `simulateResidential` (lines 72-77): with road, power, a
population strictly between 0 and the ceiling `10 + development*50`, and
happiness at least 40, with probability 0.1 add `floor(rand*5)+1`
inhabitants.  Note: the sum is NOT capped at the ceiling. -/
def driftPhase (t : Tile) (hasRoad : Bool) (happiness roll incRoll : ℚ) : Tile :=
  if hasRoad = true ∧ t.powered = true ∧ 0 < t.population ∧
      t.population < 10 + t.development * 50 ∧ 40 ≤ happiness ∧ roll < 1 / 10 then
    { t with population := t.population + driftInc incRoll }
  else t

/-- `simulateResidential` from `simulation.ts`: the four steps in source
order, then tax income `population * 0.1` from the final population. -/
def simulateResidential (t : Tile) (hasRoad : Bool) (happiness : ℚ)
    (r : TileRand) : Tile × ℚ :=
  let t1 := declinePhase t happiness r.declineRoll r.lossRoll
  let t2 := seedPhase t1 hasRoad happiness
  let t3 := growthPhase t2 hasRoad happiness r.devRoll
  let t4 := driftPhase t3 hasRoad happiness r.driftRoll r.incRoll
  (t4, (t4.population : ℚ) * (1 / 10))

/-- `simulateCommercial` from `simulation.ts`: with road, power and
development below 3, probability 0.03 of one development step; income is
`development * 10` from the final development. -/
def simulateCommercial (t : Tile) (hasRoad : Bool) (roll : ℚ) : Tile × ℚ :=
  let t1 :=
    if hasRoad = true ∧ t.powered = true ∧ t.development < 3 ∧ roll < 3 / 100 then
      { t with development := t.development + 1 }
    else t
  (t1, (t1.development : ℚ) * 10)

/-- `simulateIndustrial` from `simulation.ts`: probability 0.04, income
`development * 15`. -/
def simulateIndustrial (t : Tile) (hasRoad : Bool) (roll : ℚ) : Tile × ℚ :=
  let t1 :=
    if hasRoad = true ∧ t.powered = true ∧ t.development < 3 ∧ roll < 4 / 100 then
      { t with development := t.development + 1 }
    else t
  (t1, (t1.development : ℚ) * 15)

/-- The per-tile dispatch of `simulate`'s switch statement: zoned tiles run
their growth rules, each power-plant cell costs 50 upkeep, all other types
contribute nothing and stay untouched. -/
def simulateTile (t : Tile) (hasRoad : Bool) (happiness : ℚ)
    (r : TileRand) : Tile × ℚ :=
  match t.type with
  | TileType.residential => simulateResidential t hasRoad happiness r
  | TileType.commercial => simulateCommercial t hasRoad r.devRoll
  | TileType.industrial => simulateIndustrial t hasRoad r.devRoll
  | TileType.powerPlant => (t, -50)
  | _ => (t, 0)

/-- `simulate` from `simulation.ts`: refresh the power grid, then run every
tile's rule (tile mutations are per-cell: the loop only writes
`development`/`population` of the visited cell, and reads of neighbours only
look at `type`, which the loop never writes, so the in-place loop equals this
pointwise map); the return value is `Math.floor` of the summed income. -/
def simulate (g : CityMap) (happiness : ℚ) (rng : Int → Int → TileRand) :
    CityMap × Int :=
  let g1 := g.updatePowerGrid
  let income : ℚ :=
    ((g1.cellsList).map fun c =>
      (simulateTile (g1.map c.2 c.1) (decide (g1.hasAdjacentRoad c.1 c.2))
        happiness (rng c.1 c.2)).2).sum
  ({ g1 with
      map := fun y x =>
        if g1.isValidPosition x y then
          (simulateTile (g1.map y x) (decide (g1.hasAdjacentRoad x y))
            happiness (rng x y)).1
        else g1.map y x },
    jsFloor income)

end SimulationEngine

namespace Game

/-- Weight a neighbour contributes to a road's load in `updateTraffic`
(game.ts): zoned neighbours add `population + development * 10`, all other
types add nothing. -/
def neighborLoad (t : Tile) : Int :=
  if t.type = TileType.residential ∨ t.type = TileType.commercial ∨
      t.type = TileType.industrial then
    t.population + t.development * 10
  else 0

/-- The load on road tile `(x,y)` in `updateTraffic`: sum over the up-to-4
in-range orthogonal neighbours (north, south, west, east, with the same
bounds guards as the source). -/
def trafficLoad (g : CityMap) (x y : Int) : Int :=
  (if 0 < y then neighborLoad (g.map (y - 1) x) else 0) +
    (if y < (g.height : Int) - 1 then neighborLoad (g.map (y + 1) x) else 0) +
    (if 0 < x then neighborLoad (g.map y (x - 1)) else 0) +
    (if x < (g.width : Int) - 1 then neighborLoad (g.map y (x + 1)) else 0)

/-- `updateTraffic` from `game.ts`: every road tile's `traffic` becomes
`Math.min(100, load)`; other tiles are untouched.  (The probabilistic
vehicle spawn it also triggers is cosmetic and writes no tile state.) -/
def updateTraffic (g : CityMap) : CityMap :=
  { g with map := fun y x =>
      if g.isValidPosition x y ∧ (g.map y x).type = TileType.road then
        { g.map y x with traffic := min 100 (trafficLoad g x y) }
      else g.map y x }

/-- Number of tiles of a given type, as counted by the service-counting loop
of `updateHappiness` in `game.ts`. -/
def countType (g : CityMap) (ty : TileType) : Int :=
  Int.ofNat ((g.cellsList).countP fun c => decide ((g.map c.2 c.1).type = ty))

/-- `industrialTiles` of `updateHappiness`: total development of developed
industrial tiles (the pollution weight). -/
def industrialPollution (g : CityMap) : Int :=
  ((g.cellsList).map fun c =>
    let t := g.map c.2 c.1
    if t.type = TileType.industrial ∧ 0 < t.development then t.development
    else 0).sum

/-- The 7×7 window scan of `updateHappiness`: is a developed industrial tile
within Chebyshev radius 3 of `(x,y)` (bounds-checked)? -/
def nearIndustryB (g : CityMap) (x y : Int) : Bool :=
  (List.range 7).any fun dy => (List.range 7).any fun dx =>
    let nx := x + (dx : Int) - 3
    let ny := y + (dy : Int) - 3
    decide (g.isValidPosition nx ny ∧ (g.map ny nx).type = TileType.industrial ∧
      0 < (g.map ny nx).development)

/-- The 7×7 window scan of `updateHappiness`: is a park within Chebyshev
radius 3 of `(x,y)` (bounds-checked)? -/
def nearParkB (g : CityMap) (x y : Int) : Bool :=
  (List.range 7).any fun dy => (List.range 7).any fun dx =>
    let nx := x + (dx : Int) - 3
    let ny := y + (dy : Int) - 3
    decide (g.isValidPosition nx ny ∧ (g.map ny nx).type = TileType.park)

/-- `totalResidential` of `updateHappiness`: inhabited residential tiles. -/
def totalResidential (g : CityMap) : Int :=
  Int.ofNat ((g.cellsList).countP fun c =>
    decide ((g.map c.2 c.1).type = TileType.residential ∧
      0 < (g.map c.2 c.1).population))

/-- `residentialNearIndustry` of `updateHappiness`. -/
def residentialNearIndustry (g : CityMap) : Int :=
  Int.ofNat ((g.cellsList).countP fun c =>
    decide ((g.map c.2 c.1).type = TileType.residential ∧
      0 < (g.map c.2 c.1).population) && nearIndustryB g c.1 c.2)

/-- `residentialNearParks` of `updateHappiness`. -/
def residentialNearParks (g : CityMap) : Int :=
  Int.ofNat ((g.cellsList).countP fun c =>
    decide ((g.map c.2 c.1).type = TileType.residential ∧
      0 < (g.map c.2 c.1).population) && nearParkB g c.1 c.2)

/-- The divisor of the pollution quotient in `updateHappiness`
(`population / 100`); only used under the guard `population > 0`. -/
def pollutionDivisor (population : Int) : ℚ := (population : ℚ) / 100

/-- The divisor of the park quotient in `updateHappiness`
(`Math.max(1, population / 500)`); never zero. -/
def parkDivisor (population : Int) : ℚ := max 1 ((population : ℚ) / 500)

/-- `updateHappiness` from `game.ts` (lines 1167-1284), as a function of the
grid and `stats.population`, returning the clamped score it stores in
`stats.happiness`.  Service deficits, the pollution and park quotients, the
residential 7×7 proximity scan, and the final clamp to `[0,100]` follow the
source line by line. -/
def updateHappiness (g : CityMap) (population : Int) : ℚ :=
  let hospitals := countType g TileType.hospital
  let policeStations := countType g TileType.police
  let schools := countType g TileType.school
  let libraries := countType g TileType.library
  let parks := countType g TileType.park
  let industrialTiles := industrialPollution g
  let neededHospitals := jsCeil ((population : ℚ) / 5000)
  let h1 : ℚ := 100 - ((max 0 (neededHospitals - hospitals) : Int) : ℚ) * 10
  let neededPolice := jsCeil ((population : ℚ) / 5000)
  let h2 := h1 - ((max 0 (neededPolice - policeStations) : Int) : ℚ) * 10
  let neededSchools := jsCeil ((population : ℚ) / 3000)
  let h3 := h2 - ((max 0 (neededSchools - schools) : Int) : ℚ) * 8
  let neededLibraries := jsCeil ((population : ℚ) / 4000)
  let h4 := h3 - ((max 0 (neededLibraries - libraries) : Int) : ℚ) * 6
  let h5 :=
    if 0 < population then
      let pollutionQuot := (industrialTiles : ℚ) / pollutionDivisor population
      if 3 < pollutionQuot then h4 - (jsFloor ((pollutionQuot - 3) * 3) : ℚ)
      else h4
    else h4
  let parkQuot := (parks : ℚ) / parkDivisor population
  let h6 :=
    if parkQuot < 1 ∧ 100 < population then
      h5 - (jsFloor ((1 - parkQuot) * 10) : ℚ)
    else if 1 < parkQuot then h5 + ((min 5 (jsFloor ((parkQuot - 1) * 2)) : Int) : ℚ)
    else h5
  let tr := totalResidential g
  let h7 :=
    if 0 < tr then
      h6 - (jsFloor ((residentialNearIndustry g : ℚ) / (tr : ℚ) * 15) : ℚ) +
        (jsFloor ((residentialNearParks g : ℚ) / (tr : ℚ) * 10) : ℚ)
    else h6
  max 0 (min 100 h7)

/-- The power-plant placement branch of `handleTileClick` in `game.ts`
(lines 772-805): reject a click too close to the right/bottom edge, reject a
footprint with any non-empty cell, reject insufficient funds, otherwise set
all 9 cells to `POWER_PLANT` and charge the cost (3000). -/
def buildPowerPlant (g : CityMap) (money : Int) (x y : Int) : CityMap × Int :=
  if (g.width : Int) - 2 ≤ x ∨ (g.height : Int) - 2 ≤ y then (g, money)
  else if ¬ ((List.range 3).all fun dy => (List.range 3).all fun dx =>
      match g.getTile (x + (dx : Int)) (y + (dy : Int)) with
      | some t => decide (t.type = TileType.empty)
      | none => false) then (g, money)
  else if money < 3000 then (g, money)
  else
    ((List.range 3).foldl (fun g1 dy =>
        (List.range 3).foldl (fun g2 dx =>
          (g2.setTileType (x + (dx : Int)) (y + (dy : Int))
            TileType.powerPlant).2) g1) g,
      money - 3000)

/-- `getTile(x,y)?.type === POWER_PLANT` with the optional chaining of
`handleTileClick`'s bulldozer branch. -/
def plantAt (g : CityMap) (x y : Int) : Bool :=
  match g.getTile x y with
  | some t => decide (t.type = TileType.powerPlant)
  | none => false

/-- The left scan of the bulldozer branch (game.ts lines 709-716): walk up
to 2 steps left from the clicked cell while the cell is a power plant. -/
def plantStartX (g : CityMap) (x y : Int) : Int :=
  if 0 ≤ x - 1 ∧ plantAt g (x - 1) y = true then
    if 0 ≤ x - 2 ∧ plantAt g (x - 2) y = true then x - 2 else x - 1
  else x

/-- The upward scan of the bulldozer branch (lines 718-725): walk up to 2
steps up, in the column found by the left scan. -/
def plantStartY (g : CityMap) (sx y : Int) : Int :=
  if 0 ≤ y - 1 ∧ plantAt g sx (y - 1) = true then
    if 0 ≤ y - 2 ∧ plantAt g sx (y - 2) = true then y - 2 else y - 1
  else y

/-- One bounds-checked cell clearing (`setTileType(...,EMPTY)` followed by
`setPowerLine(...,false)`) of the bulldozer branch's 3×3 loop. -/
def clearCell (g : CityMap) (x y : Int) : CityMap :=
  if g.isValidPosition x y then
    ((g.setTileType x y TileType.empty).2.setPowerLine x y false).2
  else g

/-- The 3×3 clearing loop of the bulldozer branch (game.ts lines 727-735):
one bounds-checked `clearCell` per footprint offset, row-major. -/
def clearPlantBlock (g : CityMap) (sx sy : Int) : CityMap :=
  (List.range 3).foldl (fun ga dy =>
    (List.range 3).foldl (fun gb dx =>
      clearCell gb (sx + (dx : Int)) (sy + (dy : Int))) ga) g

/-- The bulldozer branch of `handleTileClick` (game.ts lines 697-745): on a
power-plant cell, locate the footprint's top-left corner by the two scans and
clear the 3×3 block (type to `EMPTY`, power-line overlay off); on any other
cell clear just that cell; then recompute the power grid. -/
def demolish (g : CityMap) (x y : Int) : CityMap :=
  match g.getTile x y with
  | none => g
  | some tile =>
    if tile.type = TileType.powerPlant then
      (clearPlantBlock g (plantStartX g x y)
        (plantStartY g (plantStartX g x y) y)).updatePowerGrid
    else
      ((((g.setTileType x y TileType.empty).2).setPowerLine x y
        false).2).updatePowerGrid

end Game

/-- The effect of `demolish` on a cleared cell: `setTileType(...,EMPTY)`
zeroes `development`/`population` together with the type, and
`setPowerLine(...,false)` removes the overlay. -/
def clearedTile (t : Tile) : Tile :=
  { t with type := TileType.empty
           development := 0
           population := 0
           powerLine := false }

/-- Two power plants standing side by side (footprints (0..2)×(0..2) and
(3..5)×(0..2)), built by two legal `handleTileClick` placements on an empty
10×10 grid. -/
def c7TwoPlants : CityMap :=
  (Game.buildPowerPlant
    (Game.buildPowerPlant (CityMap.createEmptyMap 10 10 (fun _ _ => 0))
      20000 0 0).1
    (Game.buildPowerPlant (CityMap.createEmptyMap 10 10 (fun _ _ => 0))
      20000 0 0).2
    3 0).1

/-- Scenario A of the spec: an empty 10×10 grid (cosmetic variants fixed to
0), one power plant placed by `handleTileClick` at (2,2) with ample funds. -/
def c4Grid : CityMap :=
  (Game.buildPowerPlant (CityMap.createEmptyMap 10 10 (fun _ _ => 0))
    20000 2 2).1

/-- The 9 cells of the 3×3 power-plant footprint anchored at (2,2). -/
def plantFootprint : Finset (Int × Int) :=
  {(2, 2), (3, 2), (4, 2), (2, 3), (3, 3), (4, 3), (2, 4), (3, 4), (4, 4)}

/-! ## Helper lemmas -/

theorem jsFloor_eq_intFloor (q : ℚ) : jsFloor q = ⌊q⌋ := by
  rw [jsFloor, Rat.floor_def', Rat.floor_def]

namespace SimulationEngine

theorem declineLoss_nonneg {q : ℚ} (h : 0 ≤ q) : 0 ≤ declineLoss q := by
  have h0 : (0 : Int) ≤ ⌊q * 10⌋ := Int.floor_nonneg.mpr (by positivity)
  rw [declineLoss, jsFloor_eq_intFloor]; omega

theorem declineLoss_ge_five {q : ℚ} (h : 0 ≤ q) : 5 ≤ declineLoss q := by
  have h0 : (0 : Int) ≤ ⌊q * 10⌋ := Int.floor_nonneg.mpr (by positivity)
  rw [declineLoss, jsFloor_eq_intFloor]; omega

theorem declineLoss_le_fourteen {q : ℚ} (h : q < 1) : declineLoss q ≤ 14 := by
  have h0 : ⌊q * 10⌋ < (10 : Int) := by
    rw [Int.floor_lt]; push_cast; linarith
  rw [declineLoss, jsFloor_eq_intFloor]; omega

theorem driftInc_pos {q : ℚ} (h : 0 ≤ q) : 1 ≤ driftInc q := by
  have h0 : (0 : Int) ≤ ⌊q * 5⌋ := Int.floor_nonneg.mpr (by positivity)
  rw [driftInc, jsFloor_eq_intFloor]; omega

theorem driftInc_le_five {q : ℚ} (h : q < 1) : driftInc q ≤ 5 := by
  have h0 : ⌊q * 5⌋ < (5 : Int) := by
    rw [Int.floor_lt]; push_cast; linarith
  rw [driftInc, jsFloor_eq_intFloor]; omega

/-- The relaxed ceiling `14 + development * 50` (the true ceiling plus the
maximal drift overshoot of 4) survives the emigration step. -/
theorem declinePhase_inv (t : Tile) (happiness roll lossRoll : ℚ)
    (hl : 0 ≤ lossRoll) (hd : 0 ≤ t.development)
    (hp : t.population ≤ 14 + t.development * 50) :
    0 ≤ (declinePhase t happiness roll lossRoll).development ∧
      (declinePhase t happiness roll lossRoll).population ≤
        14 + (declinePhase t happiness roll lossRoll).development * 50 := by
  have hloss := declineLoss_nonneg hl
  unfold declinePhase
  split_ifs with h1 h2 h3 <;> (try dsimp only) <;> constructor <;> first
    | exact hd
    | exact hp
    | omega

/-- The relaxed ceiling survives the seeding step. -/
theorem seedPhase_inv (t : Tile) (hasRoad : Bool) (happiness : ℚ)
    (hd : 0 ≤ t.development) (hp : t.population ≤ 14 + t.development * 50) :
    0 ≤ (seedPhase t hasRoad happiness).development ∧
      (seedPhase t hasRoad happiness).population ≤
        14 + (seedPhase t hasRoad happiness).development * 50 := by
  unfold seedPhase
  split_ifs with h1 <;> (try dsimp only) <;> constructor <;> first
    | exact hd
    | exact hp
    | omega

/-- The relaxed ceiling survives the development step (which resets the
population to the new exact ceiling). -/
theorem growthPhase_inv (t : Tile) (hasRoad : Bool) (happiness roll : ℚ)
    (hd : 0 ≤ t.development) (hp : t.population ≤ 14 + t.development * 50) :
    0 ≤ (growthPhase t hasRoad happiness roll).development ∧
      (growthPhase t hasRoad happiness roll).population ≤
        14 + (growthPhase t hasRoad happiness roll).development * 50 := by
  unfold growthPhase
  split_ifs with h1 <;> (try dsimp only) <;> constructor <;> first
    | exact hd
    | exact hp
    | omega

/-- The relaxed ceiling survives the drift step: the guard requires the
population to be strictly below the exact ceiling `10 + development * 50`
and the increment is at most 5, so the result stays at or below
`14 + development * 50`. -/
theorem driftPhase_inv (t : Tile) (hasRoad : Bool) (happiness roll incRoll : ℚ)
    (hi0 : 0 ≤ incRoll) (hi1 : incRoll < 1)
    (hd : 0 ≤ t.development) (hp : t.population ≤ 14 + t.development * 50) :
    0 ≤ (driftPhase t hasRoad happiness roll incRoll).development ∧
      (driftPhase t hasRoad happiness roll incRoll).population ≤
        14 + (driftPhase t hasRoad happiness roll incRoll).development * 50 := by
  have hip := driftInc_pos hi0
  have hi5 := driftInc_le_five hi1
  unfold driftPhase
  split_ifs with h1 <;> (try dsimp only) <;> constructor <;> first
    | exact hd
    | exact hp
    | omega

end SimulationEngine

namespace CityMap

theorem updatePowerGrid_type (g : CityMap) (x y : Int) :
    ((g.updatePowerGrid).map y x).type = (g.map y x).type := by
  unfold updatePowerGrid; dsimp only; split <;> rfl

theorem updatePowerGrid_powerLine (g : CityMap) (x y : Int) :
    ((g.updatePowerGrid).map y x).powerLine = (g.map y x).powerLine := by
  unfold updatePowerGrid; dsimp only; split <;> rfl

theorem updatePowerGrid_development (g : CityMap) (x y : Int) :
    ((g.updatePowerGrid).map y x).development = (g.map y x).development := by
  unfold updatePowerGrid; dsimp only; split <;> rfl

theorem updatePowerGrid_population (g : CityMap) (x y : Int) :
    ((g.updatePowerGrid).map y x).population = (g.map y x).population := by
  unfold updatePowerGrid; dsimp only; split <;> rfl

theorem updatePowerGrid_traffic (g : CityMap) (x y : Int) :
    ((g.updatePowerGrid).map y x).traffic = (g.map y x).traffic := by
  unfold updatePowerGrid; dsimp only; split <;> rfl

theorem updatePowerGrid_variant (g : CityMap) (x y : Int) :
    ((g.updatePowerGrid).map y x).variant = (g.map y x).variant := by
  unfold updatePowerGrid; dsimp only; split <;> rfl

theorem updatePowerGrid_trafficLight (g : CityMap) (x y : Int) :
    ((g.updatePowerGrid).map y x).trafficLight = (g.map y x).trafficLight := by
  unfold updatePowerGrid; dsimp only; split <;> rfl

theorem updatePowerGrid_width (g : CityMap) :
    (g.updatePowerGrid).width = g.width := rfl

theorem updatePowerGrid_height (g : CityMap) :
    (g.updatePowerGrid).height = g.height := rfl

theorem updatePowerGrid_sources (g : CityMap) :
    (g.updatePowerGrid).sources = g.sources := by
  unfold sources
  apply Finset.filter_congr
  intro p _
  rw [updatePowerGrid_type]

theorem updatePowerGrid_poweredStep (g : CityMap) :
    (g.updatePowerGrid).poweredStep = g.poweredStep := by
  funext s
  unfold poweredStep
  congr 1
  apply Finset.filter_congr
  intro p _
  have ht := updatePowerGrid_type g p.1 p.2
  have hl := updatePowerGrid_powerLine g p.1 p.2
  unfold CanConduct
  rw [ht, hl]

theorem updatePowerGrid_poweredSet (g : CityMap) :
    (g.updatePowerGrid).poweredSet = g.poweredSet := by
  unfold poweredSet
  rw [updatePowerGrid_poweredStep, updatePowerGrid_sources,
    updatePowerGrid_width, updatePowerGrid_height]

end CityMap

/-! ## Claims -/

/-- Claim C3: `updatePowerGrid` is idempotent — it recomputes the powered set
from scratch out of the `type`/`powerLine` fields only, which it never
modifies, so a second run with no mutation in between reproduces the same
grid (the same powered flags and the same `powerGrid` set). -/
theorem c3_updatePowerGrid_idempotent (g : CityMap) :
    g.updatePowerGrid.updatePowerGrid = g.updatePowerGrid := by
  have hps := g.updatePowerGrid_poweredSet
  apply CityMap.ext
  · rfl
  · rfl
  · funext y x
    show (g.updatePowerGrid.updatePowerGrid).map y x = (g.updatePowerGrid).map y x
    conv_lhs => rw [CityMap.updatePowerGrid]
    dsimp only
    by_cases hv : g.updatePowerGrid.isValidPosition x y
    · rw [if_pos hv, hps]
      show ({ (g.updatePowerGrid).map y x with
          powered := decide ((x, y) ∈ g.poweredSet) } : Tile) = _
      rw [CityMap.updatePowerGrid]
      dsimp only
      have hv' : g.isValidPosition x y := hv
      rw [if_pos hv']
    · rw [if_neg hv]
  · show g.updatePowerGrid.poweredSet = g.poweredSet
    exact hps

/-- Claim C9: out-of-range coordinates make `getTile` return `none`, make
`setTileType` and `setPowerLine` return `false` leaving the grid unchanged
(no exceptions: all operations are total functions), and `setTileType`
additionally resets `development` and `population` to 0 when the new type is
`Empty`. -/
theorem c9_invalid_coordinates_rejected (g : CityMap) (x y : Int)
    (ty : TileType) (b : Bool) (hinv : ¬ g.isValidPosition x y)
    (x' y' : Int) (hval : g.isValidPosition x' y') :
    g.getTile x y = none ∧
    g.setTileType x y ty = (false, g) ∧
    g.setPowerLine x y b = (false, g) ∧
    ((g.setTileType x' y' TileType.empty).2.map y' x').development = 0 ∧
    ((g.setTileType x' y' TileType.empty).2.map y' x').population = 0 ∧
    ((g.setTileType x' y' TileType.empty).2.map y' x').type = TileType.empty := by
  refine ⟨?_, ?_, ?_, ?_, ?_, ?_⟩
  · simp [CityMap.getTile, hinv]
  · simp [CityMap.setTileType, hinv]
  · simp [CityMap.setPowerLine, hinv]
  · simp [CityMap.setTileType, hval]
  · simp [CityMap.setTileType, hval]
  · simp [CityMap.setTileType, hval]

/-- Witness for C9 on a concrete 3×2 grid: coordinate (5,0) is out of range,
coordinate (1,1) is in range. -/
theorem c9_invalid_coordinates_rejected_witness :
    let g := CityMap.createEmptyMap 3 2 (fun _ _ => 0)
    g.getTile 5 0 = none ∧
    g.setTileType 5 0 TileType.road = (false, g) ∧
    g.setPowerLine 5 0 true = (false, g) ∧
    ((g.setTileType 1 1 TileType.empty).2.map 1 1).development = 0 ∧
    ((g.setTileType 1 1 TileType.empty).2.map 1 1).population = 0 ∧
    ((g.setTileType 1 1 TileType.empty).2.map 1 1).type = TileType.empty :=
  c9_invalid_coordinates_rejected (CityMap.createEmptyMap 3 2 (fun _ _ => 0))
    5 0 TileType.road true (by decide) 1 1 (by decide)

/-- Counterexample to claim C1 as stated: the population-drift step of
`simulateResidential` applies NO cap.  A residential tile with road and
power, development 0 and population 9 (within the claimed ceiling
`10 + 0*50 = 10`), at happiness 60 with valid rolls (drift fires, increment
draw `0.9` giving `floor(0.9*5)+1 = 5`), ends the step at population 14,
above the claimed ceiling. -/
theorem c1_counterexample :
    let t : Tile := { type := TileType.residential
                      powered := true
                      development := 0
                      population := 9
                      variant := 0
                      powerLine := false
                      traffic := 0
                      trafficLight := none }
    let r : TileRand := { declineRoll := 0
                          lossRoll := 0
                          devRoll := 1/2
                          driftRoll := 0
                          incRoll := 9/10 }
    let t' := (SimulationEngine.simulateResidential t true 60 r).1
    r.Valid ∧ 0 ≤ t.population ∧ t.population ≤ 10 + t.development * 50 ∧
      t'.population = 14 ∧ t'.development = 0 ∧
      ¬ (t'.population ≤ 10 + t'.development * 50) := by
  with_unfolding_all decide

/-- Claim C1 as amended: the drift step is not capped, but its guard
(`population < 10 + development*50`) plus the increment bound (at most 5)
keep every residential tile at or below `14 + development * 50` — the
claimed ceiling plus the maximal overshoot 4 — through the whole residential
step, provided it held before. -/
theorem c1_amended_population_ceiling (t : Tile) (hasRoad : Bool)
    (happiness : ℚ) (r : TileRand) (hr : r.Valid) (hd : 0 ≤ t.development)
    (hp : t.population ≤ 14 + t.development * 50) :
    0 ≤ ((SimulationEngine.simulateResidential t hasRoad happiness r).1).development ∧
      ((SimulationEngine.simulateResidential t hasRoad happiness r).1).population ≤
        14 + ((SimulationEngine.simulateResidential t hasRoad happiness r).1).development * 50 := by
  obtain ⟨-, ⟨hl0, -⟩, -, -, hi0, hi1⟩ := hr
  have h1 := SimulationEngine.declinePhase_inv t happiness r.declineRoll
    r.lossRoll hl0 hd hp
  have h2 := SimulationEngine.seedPhase_inv _ hasRoad happiness h1.1 h1.2
  have h3 := SimulationEngine.growthPhase_inv _ hasRoad happiness r.devRoll
    h2.1 h2.2
  have h4 := SimulationEngine.driftPhase_inv _ hasRoad happiness r.driftRoll
    r.incRoll hi0 hi1 h3.1 h3.2
  exact h4

/-- Witness for the amended C1: the counterexample tile itself satisfies the
relaxed ceiling before and after the step (9 ≤ 14 before, 14 ≤ 14 after). -/
theorem c1_amended_population_ceiling_witness :
    let t : Tile := { type := TileType.residential
                      powered := true
                      development := 0
                      population := 9
                      variant := 0
                      powerLine := false
                      traffic := 0
                      trafficLight := none }
    let r : TileRand := { declineRoll := 0
                          lossRoll := 0
                          devRoll := 1/2
                          driftRoll := 0
                          incRoll := 9/10 }
    0 ≤ ((SimulationEngine.simulateResidential t true 60 r).1).development ∧
      ((SimulationEngine.simulateResidential t true 60 r).1).population ≤
        14 + ((SimulationEngine.simulateResidential t true 60 r).1).development * 50 :=
  c1_amended_population_ceiling _ true 60 _
    (by with_unfolding_all decide) (by with_unfolding_all decide)
    (by with_unfolding_all decide)

/-- Counterexample to claim C8 as stated: the emigration loss is
`Math.floor(Math.random()*10) + 5`, whose value range over all valid draws is
`{5,...,14}` — the amount 15 claimed by "uniform-random in [5,15]" can never
be drawn. -/
theorem c8_counterexample :
    ¬ ∃ q : ℚ, 0 ≤ q ∧ q < 1 ∧ SimulationEngine.declineLoss q = 15 := by
  rintro ⟨q, h0, h1, he⟩
  have h14 := SimulationEngine.declineLoss_le_fourteen h1
  omega

/-- Claim C8 as amended: for a residential tile with happiness below 40 and
positive population, the decline step fires exactly when the first roll is
below `(40 - happiness) / 200`; when it fires it subtracts a uniform-random
amount in `[5,14]` (not `[5,15]`) floored at 0, then lowers `development` by
1 (floored at 0) exactly when the new population is below
`10 + (development - 1) * 50`; when it does not fire the tile is untouched. -/
theorem c8_amended_decline_step (t : Tile) (happiness roll lossRoll : ℚ)
    (hl0 : 0 ≤ lossRoll) (hl1 : lossRoll < 1) (hd : 0 ≤ t.development) :
    (happiness < 40 → 0 < t.population → roll < (40 - happiness) / 200 →
      5 ≤ SimulationEngine.declineLoss lossRoll ∧
      SimulationEngine.declineLoss lossRoll ≤ 14 ∧
      (SimulationEngine.declinePhase t happiness roll lossRoll).population =
        max 0 (t.population - SimulationEngine.declineLoss lossRoll) ∧
      (SimulationEngine.declinePhase t happiness roll lossRoll).development =
        (if max 0 (t.population - SimulationEngine.declineLoss lossRoll) <
            10 + (t.development - 1) * 50 then max 0 (t.development - 1)
          else t.development)) ∧
    (¬ (happiness < 40 ∧ 0 < t.population ∧ roll < (40 - happiness) / 200) →
      SimulationEngine.declinePhase t happiness roll lossRoll = t) := by
  constructor
  · intro h40 hpop hroll
    refine ⟨SimulationEngine.declineLoss_ge_five hl0,
      SimulationEngine.declineLoss_le_fourteen hl1, ?_, ?_⟩
    · unfold SimulationEngine.declinePhase
      rw [if_pos ⟨h40, hpop⟩, if_pos hroll]
      split_ifs <;> rfl
    · unfold SimulationEngine.declinePhase
      rw [if_pos ⟨h40, hpop⟩, if_pos hroll]
      by_cases hC : max 0 (t.population - SimulationEngine.declineLoss lossRoll) <
          10 + (t.development - 1) * 50
      · by_cases hD : 0 < t.development
        · rw [if_pos ⟨hC, hD⟩, if_pos hC]
        · rw [if_neg (by tauto), if_pos hC]
          show t.development = max 0 (t.development - 1)
          omega
      · rw [if_neg (by tauto), if_neg hC]
  · intro hn
    unfold SimulationEngine.declinePhase
    by_cases h1 : happiness < 40 ∧ 0 < t.population
    · rw [if_pos h1, if_neg (by tauto)]
    · rw [if_neg h1]

/-- Witness for the amended C8: a concrete instance — development 1,
population 20, happiness 20, check roll 0 (below the chance
`(40-20)/200 = 0.1`), loss roll 0.5 (loss 10): the step fires, population
drops to 10, and since `10 < 10 + (1-1)*50` fails development stays 1. -/
theorem c8_amended_decline_step_witness :
    let t : Tile := { type := TileType.residential
                      powered := true
                      development := 1
                      population := 20
                      variant := 0
                      powerLine := false
                      traffic := 0
                      trafficLight := none }
    ((20 : ℚ) < 40 → 0 < t.population → (0 : ℚ) < (40 - 20) / 200 →
      5 ≤ SimulationEngine.declineLoss (1/2) ∧
      SimulationEngine.declineLoss (1/2) ≤ 14 ∧
      (SimulationEngine.declinePhase t 20 0 (1/2)).population =
        max 0 (t.population - SimulationEngine.declineLoss (1/2)) ∧
      (SimulationEngine.declinePhase t 20 0 (1/2)).development =
        (if max 0 (t.population - SimulationEngine.declineLoss (1/2)) <
            10 + (t.development - 1) * 50 then max 0 (t.development - 1)
          else t.development)) ∧
    (¬ ((20 : ℚ) < 40 ∧ 0 < t.population ∧ (0 : ℚ) < (40 - 20) / 200) →
      SimulationEngine.declinePhase t 20 0 (1/2) = t) :=
  c8_amended_decline_step _ 20 0 (1/2) (by with_unfolding_all decide)
    (by with_unfolding_all decide) (by with_unfolding_all decide)

namespace SimulationEngine

theorem declinePhase_powered (t : Tile) (happiness roll lossRoll : ℚ) :
    (declinePhase t happiness roll lossRoll).powered = t.powered := by
  unfold declinePhase; split_ifs <;> rfl

theorem declinePhase_development_le (t : Tile) (happiness roll lossRoll : ℚ) :
    (declinePhase t happiness roll lossRoll).development ≤ t.development := by
  unfold declinePhase
  split_ifs with h1 h2 h3 <;> (try dsimp only) <;> omega

theorem declinePhase_population_le (t : Tile) (happiness roll lossRoll : ℚ)
    (hp : 0 ≤ t.population) (hl : 0 ≤ lossRoll) :
    (declinePhase t happiness roll lossRoll).population ≤ t.population := by
  have hloss := declineLoss_nonneg hl
  unfold declinePhase
  split_ifs with h1 h2 h3 <;> (try dsimp only) <;> omega

theorem seedPhase_no_precond (t : Tile) (hasRoad : Bool) (happiness : ℚ)
    (h : ¬ (hasRoad = true ∧ t.powered = true)) :
    seedPhase t hasRoad happiness = t := by
  unfold seedPhase; rw [if_neg (by tauto)]

theorem growthPhase_no_precond (t : Tile) (hasRoad : Bool)
    (happiness roll : ℚ) (h : ¬ (hasRoad = true ∧ t.powered = true)) :
    growthPhase t hasRoad happiness roll = t := by
  unfold growthPhase; rw [if_neg (by tauto)]

theorem driftPhase_no_precond (t : Tile) (hasRoad : Bool)
    (happiness roll incRoll : ℚ) (h : ¬ (hasRoad = true ∧ t.powered = true)) :
    driftPhase t hasRoad happiness roll incRoll = t := by
  unfold driftPhase; rw [if_neg (by tauto)]

end SimulationEngine

/-- Counterexample to claim C2 as stated: income is NOT gated on the
road/power preconditions.  A commercial tile with development 2, no power
and no adjacent road undergoes no growth but still contributes income
`development * 10 = 20 ≠ 0` to the tick. -/
theorem c2_counterexample :
    let t : Tile := { type := TileType.commercial
                      powered := false
                      development := 2
                      population := 0
                      variant := 0
                      powerLine := false
                      traffic := 0
                      trafficLight := none }
    (SimulationEngine.simulateCommercial t false (1/2)).1 = t ∧
      (SimulationEngine.simulateCommercial t false (1/2)).2 = 20 ∧
      (20 : ℚ) ≠ 0 := by
  with_unfolding_all decide

/-- Claim C2 as amended: growth is indeed gated — a zoned tile lacking an
adjacent road or power undergoes no growth (residential development and
population cannot increase, commercial/industrial tiles are untouched) —
but income is NOT gated: the tick still pays `population * 0.1`
(residential, from the post-step population), `development * 10`
(commercial) and `development * 15` (industrial). -/
theorem c2_amended_growth_gated_income_not (t : Tile) (hasRoad : Bool)
    (happiness : ℚ) (r : TileRand) (croll iroll : ℚ) (hr : r.Valid)
    (hp : 0 ≤ t.population)
    (hng : ¬ (hasRoad = true ∧ t.powered = true)) :
    ((SimulationEngine.simulateResidential t hasRoad happiness r).1).development ≤
        t.development ∧
      ((SimulationEngine.simulateResidential t hasRoad happiness r).1).population ≤
        t.population ∧
      (SimulationEngine.simulateResidential t hasRoad happiness r).2 =
        (((SimulationEngine.simulateResidential t hasRoad happiness r).1).population : ℚ) *
          (1 / 10) ∧
      SimulationEngine.simulateCommercial t hasRoad croll =
        (t, (t.development : ℚ) * 10) ∧
      SimulationEngine.simulateIndustrial t hasRoad iroll =
        (t, (t.development : ℚ) * 15) := by
  obtain ⟨-, ⟨hl0, -⟩, -, -, -⟩ := hr
  have hng1 : ¬ (hasRoad = true ∧
      (SimulationEngine.declinePhase t happiness r.declineRoll r.lossRoll).powered = true) := by
    rw [SimulationEngine.declinePhase_powered]; exact hng
  have hres : (SimulationEngine.simulateResidential t hasRoad happiness r).1 =
      SimulationEngine.declinePhase t happiness r.declineRoll r.lossRoll := by
    show SimulationEngine.driftPhase (SimulationEngine.growthPhase
        (SimulationEngine.seedPhase (SimulationEngine.declinePhase t happiness
          r.declineRoll r.lossRoll) hasRoad happiness) hasRoad happiness
        r.devRoll) hasRoad happiness r.driftRoll r.incRoll = _
    rw [SimulationEngine.seedPhase_no_precond _ _ _ hng1,
      SimulationEngine.growthPhase_no_precond _ _ _ _ hng1,
      SimulationEngine.driftPhase_no_precond _ _ _ _ _ hng1]
  refine ⟨?_, ?_, rfl, ?_, ?_⟩
  · rw [hres]; exact SimulationEngine.declinePhase_development_le _ _ _ _
  · rw [hres]; exact SimulationEngine.declinePhase_population_le _ _ _ _ hp hl0
  · unfold SimulationEngine.simulateCommercial
    rw [if_neg (by tauto)]
  · unfold SimulationEngine.simulateIndustrial
    rw [if_neg (by tauto)]

/-- Witness for the amended C2: a powered-but-roadless residential tile with
population 30 and development 1, and the commercial/industrial shapes at the
same missing-precondition inputs. -/
theorem c2_amended_growth_gated_income_not_witness :
    let t : Tile := { type := TileType.residential
                      powered := true
                      development := 1
                      population := 30
                      variant := 0
                      powerLine := false
                      traffic := 0
                      trafficLight := none }
    let r : TileRand := { declineRoll := 0
                          lossRoll := 0
                          devRoll := 0
                          driftRoll := 0
                          incRoll := 0 }
    ((SimulationEngine.simulateResidential t false 60 r).1).development ≤
        t.development ∧
      ((SimulationEngine.simulateResidential t false 60 r).1).population ≤
        t.population ∧
      (SimulationEngine.simulateResidential t false 60 r).2 =
        (((SimulationEngine.simulateResidential t false 60 r).1).population : ℚ) *
          (1 / 10) ∧
      SimulationEngine.simulateCommercial t false 0 =
        (t, (t.development : ℚ) * 10) ∧
      SimulationEngine.simulateIndustrial t false 0 =
        (t, (t.development : ℚ) * 15) :=
  c2_amended_growth_gated_income_not _ false 60 _ 0 0
    (by with_unfolding_all decide) (by with_unfolding_all decide)
    (by with_unfolding_all decide)

/-- Claim C10: one simulation step leaves every valid tile whose type is not
Residential/Commercial/Industrial entirely unchanged except for the
`powered` flag, which the power-grid recomputation at the start of the step
may rewrite: `type`, `development`, `population`, the power-line overlay,
`traffic` (and also `variant` and the traffic-light phase) are all
preserved. -/
theorem c10_simulate_frame (g : CityMap) (happiness : ℚ)
    (rng : Int → Int → TileRand) (x y : Int) (hv : g.isValidPosition x y)
    (ht : ¬ ((g.map y x).type = TileType.residential ∨
      (g.map y x).type = TileType.commercial ∨
      (g.map y x).type = TileType.industrial)) :
    (((SimulationEngine.simulate g happiness rng).1).map y x).type =
        (g.map y x).type ∧
      (((SimulationEngine.simulate g happiness rng).1).map y x).development =
        (g.map y x).development ∧
      (((SimulationEngine.simulate g happiness rng).1).map y x).population =
        (g.map y x).population ∧
      (((SimulationEngine.simulate g happiness rng).1).map y x).powerLine =
        (g.map y x).powerLine ∧
      (((SimulationEngine.simulate g happiness rng).1).map y x).traffic =
        (g.map y x).traffic ∧
      (((SimulationEngine.simulate g happiness rng).1).map y x).variant =
        (g.map y x).variant ∧
      (((SimulationEngine.simulate g happiness rng).1).map y x).trafficLight =
        (g.map y x).trafficLight := by
  have hv1 : (g.updatePowerGrid).isValidPosition x y := hv
  have hred : ((SimulationEngine.simulate g happiness rng).1).map y x =
      (SimulationEngine.simulateTile ((g.updatePowerGrid).map y x)
        (decide ((g.updatePowerGrid).hasAdjacentRoad x y)) happiness
        (rng x y)).1 := by
    show (if (g.updatePowerGrid).isValidPosition x y then
        (SimulationEngine.simulateTile ((g.updatePowerGrid).map y x)
          (decide ((g.updatePowerGrid).hasAdjacentRoad x y)) happiness
          (rng x y)).1
      else (g.updatePowerGrid).map y x) = _
    rw [if_pos hv1]
  have htype := g.updatePowerGrid_type x y
  have hsim : (SimulationEngine.simulateTile ((g.updatePowerGrid).map y x)
      (decide ((g.updatePowerGrid).hasAdjacentRoad x y)) happiness
      (rng x y)).1 = (g.updatePowerGrid).map y x := by
    unfold SimulationEngine.simulateTile
    cases hty : ((g.updatePowerGrid).map y x).type <;>
      simp only [hty] <;> first
      | rfl
      | (exfalso; rw [hty] at htype; exact ht (by rw [← htype]; tauto))
  rw [hred, hsim]
  exact ⟨g.updatePowerGrid_type x y, g.updatePowerGrid_development x y,
    g.updatePowerGrid_population x y, g.updatePowerGrid_powerLine x y,
    g.updatePowerGrid_traffic x y, g.updatePowerGrid_variant x y,
    g.updatePowerGrid_trafficLight x y⟩

/-- Witness for C10: a 2×1 grid with a road at (0,0) and a park at (1,0);
the park tile keeps all its fields through a tick. -/
theorem c10_simulate_frame_witness :
    let g0 := CityMap.createEmptyMap 2 1 (fun _ _ => 0)
    let g1 := (g0.setTileType 0 0 TileType.road).2
    let g := (g1.setTileType 1 0 TileType.park).2
    let rng : Int → Int → TileRand := fun _ _ =>
      { declineRoll := 0
        lossRoll := 0
        devRoll := 0
        driftRoll := 0
        incRoll := 0 }
    (((SimulationEngine.simulate g 50 rng).1).map 0 1).type =
        (g.map 0 1).type ∧
      (((SimulationEngine.simulate g 50 rng).1).map 0 1).development =
        (g.map 0 1).development ∧
      (((SimulationEngine.simulate g 50 rng).1).map 0 1).population =
        (g.map 0 1).population ∧
      (((SimulationEngine.simulate g 50 rng).1).map 0 1).powerLine =
        (g.map 0 1).powerLine ∧
      (((SimulationEngine.simulate g 50 rng).1).map 0 1).traffic =
        (g.map 0 1).traffic ∧
      (((SimulationEngine.simulate g 50 rng).1).map 0 1).variant =
        (g.map 0 1).variant ∧
      (((SimulationEngine.simulate g 50 rng).1).map 0 1).trafficLight =
        (g.map 0 1).trafficLight :=
  c10_simulate_frame _ 50 _ 1 0 (by decide) (by decide)

namespace Game

theorem neighborLoad_nonneg (t : Tile) (hp : 0 ≤ t.population)
    (hd : 0 ≤ t.development) : 0 ≤ neighborLoad t := by
  unfold neighborLoad; split_ifs <;> omega

end Game

/-- Claim C6: after a traffic update, every road tile's traffic equals the
sum, over its in-range orthogonal neighbours of type
Residential/Commercial/Industrial, of `population + development*10`, clamped
to `[0,100]` (the code only applies `min 100`, but on reachable grids —
population and development non-negative everywhere — the sum is
non-negative, so that equals the clamp), and hence lies in `[0,100]`. -/
theorem c6_traffic_bounds (g : CityMap)
    (hnn : ∀ x y : Int, g.isValidPosition x y →
      0 ≤ (g.map y x).population ∧ 0 ≤ (g.map y x).development)
    (x y : Int) (hv : g.isValidPosition x y)
    (hr : (g.map y x).type = TileType.road) :
    ((Game.updateTraffic g).map y x).traffic =
        max 0 (min 100 (Game.trafficLoad g x y)) ∧
      0 ≤ ((Game.updateTraffic g).map y x).traffic ∧
      ((Game.updateTraffic g).map y x).traffic ≤ 100 := by
  obtain ⟨hx0, hxW, hy0, hyH⟩ := hv
  have t1 : 0 ≤ (if 0 < y then Game.neighborLoad (g.map (y - 1) x) else 0) := by
    split_ifs with h
    · exact Game.neighborLoad_nonneg _
        (hnn x (y - 1) ⟨hx0, hxW, by omega, by omega⟩).1
        (hnn x (y - 1) ⟨hx0, hxW, by omega, by omega⟩).2
    · exact le_refl 0
  have t2 : 0 ≤ (if y < (g.height : Int) - 1 then
      Game.neighborLoad (g.map (y + 1) x) else 0) := by
    split_ifs with h
    · exact Game.neighborLoad_nonneg _
        (hnn x (y + 1) ⟨hx0, hxW, by omega, by omega⟩).1
        (hnn x (y + 1) ⟨hx0, hxW, by omega, by omega⟩).2
    · exact le_refl 0
  have t3 : 0 ≤ (if 0 < x then Game.neighborLoad (g.map y (x - 1)) else 0) := by
    split_ifs with h
    · exact Game.neighborLoad_nonneg _
        (hnn (x - 1) y ⟨by omega, by omega, hy0, hyH⟩).1
        (hnn (x - 1) y ⟨by omega, by omega, hy0, hyH⟩).2
    · exact le_refl 0
  have t4 : 0 ≤ (if x < (g.width : Int) - 1 then
      Game.neighborLoad (g.map y (x + 1)) else 0) := by
    split_ifs with h
    · exact Game.neighborLoad_nonneg _
        (hnn (x + 1) y ⟨by omega, by omega, hy0, hyH⟩).1
        (hnn (x + 1) y ⟨by omega, by omega, hy0, hyH⟩).2
    · exact le_refl 0
  have hload : 0 ≤ Game.trafficLoad g x y := by
    unfold Game.trafficLoad; omega
  have htr : ((Game.updateTraffic g).map y x).traffic =
      min 100 (Game.trafficLoad g x y) := by
    unfold Game.updateTraffic
    dsimp only
    rw [if_pos ⟨⟨hx0, hxW, hy0, hyH⟩, hr⟩]
  refine ⟨?_, ?_, ?_⟩ <;> rw [htr] <;> omega

/-- Witness for C6: a 3×1 grid — residential (population 7, development 1)
at (0,0), road at (1,0), empty at (2,0).  All tile fields are non-negative,
and the theorem applies at the road tile. -/
theorem c6_traffic_bounds_witness :
    let res : Tile := { type := TileType.residential
                        powered := false
                        development := 1
                        population := 7
                        variant := 0
                        powerLine := false
                        traffic := 0
                        trafficLight := none }
    let road : Tile := { type := TileType.road
                         powered := false
                         development := 0
                         population := 0
                         variant := 0
                         powerLine := false
                         traffic := 0
                         trafficLight := none }
    let emp : Tile := { type := TileType.empty
                        powered := false
                        development := 0
                        population := 0
                        variant := 0
                        powerLine := false
                        traffic := 0
                        trafficLight := none }
    let g : CityMap := { width := 3
                         height := 1
                         map := fun _ x => if x = 0 then res else
                           if x = 1 then road else emp
                         powerGrid := ∅ }
    ((Game.updateTraffic g).map 0 1).traffic =
        max 0 (min 100 (Game.trafficLoad g 1 0)) ∧
      0 ≤ ((Game.updateTraffic g).map 0 1).traffic ∧
      ((Game.updateTraffic g).map 0 1).traffic ≤ 100 :=
  c6_traffic_bounds _
    (by
      intro a b hv
      dsimp only
      split_ifs <;> exact ⟨by decide, by decide⟩)
    1 0 (by decide) (by decide)

/-- Claim C5: for an arbitrary grid and an arbitrary total population
(including 0), the recomputed happiness lies in `[0,100]` — the final
`Math.max(0, Math.min(100, ·))` clamp guarantees it — and no division by
zero occurs: the park divisor `max(1, population/500)` is never zero, and
the pollution divisor `population/100` is only used under the guard
`population > 0`, where it is nonzero (all other divisors are the nonzero
constants 5000, 5000, 3000, 4000, 500, 100 and the guarded
`totalResidential`). -/
theorem c5_happiness_bounds (g : CityMap) (population : Int) :
    0 ≤ Game.updateHappiness g population ∧
      Game.updateHappiness g population ≤ 100 ∧
      Game.parkDivisor population ≠ 0 ∧
      (0 < population → Game.pollutionDivisor population ≠ 0) := by
  refine ⟨?_, ?_, ?_, ?_⟩
  · unfold Game.updateHappiness
    exact le_max_left _ _
  · unfold Game.updateHappiness
    exact max_le (by norm_num) (min_le_left _ _)
  · unfold Game.parkDivisor
    intro h
    have h1 : (1 : ℚ) ≤ max 1 ((population : ℚ) / 500) := le_max_left _ _
    rw [h] at h1
    norm_num at h1
  · intro hp
    unfold Game.pollutionDivisor
    have h1 : (0 : ℚ) < (population : ℚ) / 100 := by
      have : (0 : ℚ) < (population : ℚ) := by exact_mod_cast hp
      positivity
    exact ne_of_gt h1

/-- Witness for C5 (the statement has no hypotheses, but this instantiates
it at population 200 on an empty 2×2 grid — exercising the positive-
population pollution guard — and additionally evaluates the score there to
56 and to 100 at population 0, the division-free edge case the claim names). -/
theorem c5_happiness_bounds_witness :
    (0 ≤ Game.updateHappiness (CityMap.createEmptyMap 2 2 (fun _ _ => 0)) 200 ∧
      Game.updateHappiness (CityMap.createEmptyMap 2 2 (fun _ _ => 0)) 200 ≤ 100 ∧
      Game.parkDivisor 200 ≠ 0 ∧
      (0 < (200 : Int) →
        Game.pollutionDivisor 200 ≠ 0)) ∧
      Game.updateHappiness (CityMap.createEmptyMap 2 2 (fun _ _ => 0)) 200 = 56 ∧
      Game.updateHappiness (CityMap.createEmptyMap 2 2 (fun _ _ => 0)) 0 = 100 :=
  ⟨c5_happiness_bounds (CityMap.createEmptyMap 2 2 (fun _ _ => 0)) 200,
    by with_unfolding_all decide, by with_unfolding_all decide⟩

set_option maxRecDepth 100000 in
/-- Claim C4: on an otherwise empty 10×10 grid, placing one power plant with
its 3×3 footprint at (2,2) and running the resolver powers exactly the 9
footprint cells (they are the flood-fill sources; no other tile conducts, so
the fill stops immediately) and leaves every other tile unpowered. -/
theorem c4_scenario_powerplant :
    (c4Grid.updatePowerGrid).powerGrid = plantFootprint ∧
      ∀ x y : Int, c4Grid.isValidPosition x y →
        (((c4Grid.updatePowerGrid).map y x).powered = true ↔
          (2 ≤ x ∧ x ≤ 4 ∧ 2 ≤ y ∧ y ≤ 4)) := by
  have h1 : c4Grid.sources = plantFootprint := by decide
  have h2 : c4Grid.poweredStep plantFootprint = plantFootprint := by decide
  have h3 : c4Grid.poweredSet = plantFootprint := by
    unfold CityMap.poweredSet
    rw [h1]
    exact Function.iterate_fixed h2 _
  constructor
  · exact h3
  · intro x y hv
    have hmap : ((c4Grid.updatePowerGrid).map y x) =
        { c4Grid.map y x with
          powered := decide ((x, y) ∈ c4Grid.poweredSet) } := by
      unfold CityMap.updatePowerGrid
      dsimp only
      rw [if_pos hv]
    rw [hmap]
    show decide ((x, y) ∈ c4Grid.poweredSet) = true ↔ _
    rw [h3, decide_eq_true_eq]
    simp only [plantFootprint, Finset.mem_insert, Finset.mem_singleton,
      Prod.mk.injEq]
    omega

/-- Witness for C4 at two concrete cells: footprint cell (3,3) is powered,
corner cell (0,0) is not. -/
theorem c4_scenario_powerplant_witness :
    (((c4Grid.updatePowerGrid).map 3 3).powered = true ↔
      (2 ≤ (3 : Int) ∧ (3 : Int) ≤ 4 ∧ 2 ≤ (3 : Int) ∧ (3 : Int) ≤ 4)) ∧
      (((c4Grid.updatePowerGrid).map 0 0).powered = true ↔
        (2 ≤ (0 : Int) ∧ (0 : Int) ≤ 4 ∧ 2 ≤ (0 : Int) ∧ (0 : Int) ≤ 4)) :=
  ⟨c4_scenario_powerplant.2 3 3 (by decide),
    c4_scenario_powerplant.2 0 0 (by decide)⟩


namespace Game

theorem clearCell_eq (g : CityMap) (x y : Int) (hv : g.isValidPosition x y) :
    clearCell g x y =
      { g with map := fun y' x' =>
          if y' = y ∧ x' = x then clearedTile (g.map y x)
          else g.map y' x' } := by
  unfold clearCell
  rw [if_pos hv]
  unfold CityMap.setTileType
  rw [if_pos hv]
  dsimp only
  unfold CityMap.setPowerLine
  have hv2 : ({ g with
                map := fun y' x' =>
                  if y' = y ∧ x' = x then
                    let t := g.map y x
                    if TileType.empty = TileType.empty then
                      { t with type := TileType.empty, development := 0, population := 0 }
                    else { t with type := TileType.empty }
                  else g.map y' x' } : CityMap).isValidPosition x y := hv
  rw [if_pos hv2]
  dsimp only
  congr 1
  funext y' x'
  by_cases h : y' = y ∧ x' = x
  · simp only [if_pos h, if_pos (And.intro rfl rfl)]
    rfl
  · simp only [if_neg h]

theorem clearCell_map_self (g : CityMap) (x y : Int)
    (hv : g.isValidPosition x y) :
    (clearCell g x y).map y x = clearedTile (g.map y x) := by
  rw [clearCell_eq g x y hv]
  dsimp only
  rw [if_pos (And.intro rfl rfl)]

theorem clearCell_map_other (g : CityMap) (x y x' y' : Int)
    (h : ¬ (y' = y ∧ x' = x)) :
    (clearCell g x y).map y' x' = g.map y' x' := by
  by_cases hv : g.isValidPosition x y
  · rw [clearCell_eq g x y hv]
    dsimp only
    rw [if_neg h]
  · unfold clearCell
    rw [if_neg hv]

theorem clearCell_width (g : CityMap) (x y : Int) :
    (clearCell g x y).width = g.width := by
  by_cases hv : g.isValidPosition x y
  · rw [clearCell_eq g x y hv]
  · unfold clearCell
    rw [if_neg hv]

theorem clearCell_height (g : CityMap) (x y : Int) :
    (clearCell g x y).height = g.height := by
  by_cases hv : g.isValidPosition x y
  · rw [clearCell_eq g x y hv]
  · unfold clearCell
    rw [if_neg hv]

theorem clearCell_isValid (g : CityMap) (a b x y : Int) :
    (clearCell g a b).isValidPosition x y ↔ g.isValidPosition x y := by
  unfold CityMap.isValidPosition
  rw [clearCell_width, clearCell_height]

end Game

namespace Game

theorem clearCell_isValid_mpr (g : CityMap) (a b x y : Int)
    (h : g.isValidPosition x y) : (clearCell g a b).isValidPosition x y :=
  (clearCell_isValid g a b x y).mpr h

theorem clearPlantBlock_unroll (g : CityMap) (sx sy : Int) :
    clearPlantBlock g sx sy =
      clearCell (clearCell (clearCell (clearCell (clearCell (clearCell
        (clearCell (clearCell (clearCell g (sx + 0) (sy + 0))
          (sx + 1) (sy + 0)) (sx + 2) (sy + 0)) (sx + 0) (sy + 1))
          (sx + 1) (sy + 1)) (sx + 2) (sy + 1)) (sx + 0) (sy + 2))
          (sx + 1) (sy + 2)) (sx + 2) (sy + 2) := rfl

/-- Pointwise description of the 3×3 clearing loop when the whole block is in
range: the 9 block cells are cleared, everything else is untouched. -/
theorem clearPlantBlock_map (g : CityMap) (sx sy x y : Int)
    (h1 : 0 ≤ sx) (h2 : sx + 2 < (g.width : Int))
    (h3 : 0 ≤ sy) (h4 : sy + 2 < (g.height : Int)) :
    (clearPlantBlock g sx sy).map y x =
      if sx ≤ x ∧ x ≤ sx + 2 ∧ sy ≤ y ∧ y ≤ sy + 2 then
        clearedTile (g.map y x)
      else g.map y x := by
  rw [clearPlantBlock_unroll]
  by_cases hin : sx ≤ x ∧ x ≤ sx + 2 ∧ sy ≤ y ∧ y ≤ sy + 2
  · rw [if_pos hin]
    obtain ⟨ha1, ha2, hb1, hb2⟩ := hin
    have hax : x = sx + 0 ∨ x = sx + 1 ∨ x = sx + 2 := by omega
    have hay : y = sy + 0 ∨ y = sy + 1 ∨ y = sy + 2 := by omega
    rcases hax with hx | hx | hx <;> rcases hay with hy | hy | hy <;>
      subst hx <;> subst hy <;>
      simp (disch := first
          | omega
          | ((repeat apply clearCell_isValid_mpr)
             unfold CityMap.isValidPosition
             omega))
        only [clearCell_map_other, clearCell_map_self]
  · rw [if_neg hin]
    simp (disch := omega) only [clearCell_map_other]

end Game

namespace Game

theorem plantAt_iff (g : CityMap) (x y : Int) :
    plantAt g x y = true ↔
      (g.isValidPosition x y ∧ (g.map y x).type = TileType.powerPlant) := by
  unfold plantAt CityMap.getTile
  by_cases hv : g.isValidPosition x y
  · rw [if_pos hv]
    simp [hv]
  · rw [if_neg hv]
    simp [hv]

theorem demolish_on_plant (g : CityMap) (x y : Int)
    (hv : g.isValidPosition x y)
    (hp : (g.map y x).type = TileType.powerPlant) :
    demolish g x y =
      (clearPlantBlock g (plantStartX g x y)
        (plantStartY g (plantStartX g x y) y)).updatePowerGrid := by
  unfold demolish CityMap.getTile
  rw [if_pos hv]
  dsimp only
  rw [if_pos hp]

end Game

/-- Claim C7 as amended: when the 3×3 footprint cells are the only
power-plant cells in the grid (the counterexample shows the scans walk into
an adjacent plant otherwise), demolishing any one footprint cell clears
exactly the 9 footprint cells (type `EMPTY`, development and population 0,
power-line overlay removed) and changes no field except `powered` (rewritten
by the closing power-grid recomputation) on any other tile. -/
theorem c7_amended_footprint_atomicity (g : CityMap) (sx sy cx cy : Int)
    (h1 : 0 ≤ sx) (h2 : sx + 2 < (g.width : Int))
    (h3 : 0 ≤ sy) (h4 : sy + 2 < (g.height : Int))
    (hFp : ∀ x y : Int, sx ≤ x → x ≤ sx + 2 → sy ≤ y → y ≤ sy + 2 →
      (g.map y x).type = TileType.powerPlant)
    (hIso : ∀ x y : Int, g.isValidPosition x y →
      ¬ (sx ≤ x ∧ x ≤ sx + 2 ∧ sy ≤ y ∧ y ≤ sy + 2) →
      (g.map y x).type ≠ TileType.powerPlant)
    (hcx1 : sx ≤ cx) (hcx2 : cx ≤ sx + 2)
    (hcy1 : sy ≤ cy) (hcy2 : cy ≤ sy + 2) :
    ∀ x y : Int,
      ((sx ≤ x ∧ x ≤ sx + 2 ∧ sy ≤ y ∧ y ≤ sy + 2) →
        ((Game.demolish g cx cy).map y x).type = TileType.empty ∧
          ((Game.demolish g cx cy).map y x).development = 0 ∧
          ((Game.demolish g cx cy).map y x).population = 0 ∧
          ((Game.demolish g cx cy).map y x).powerLine = false) ∧
      (¬ (sx ≤ x ∧ x ≤ sx + 2 ∧ sy ≤ y ∧ y ≤ sy + 2) →
        ((Game.demolish g cx cy).map y x).type = (g.map y x).type ∧
          ((Game.demolish g cx cy).map y x).development = (g.map y x).development ∧
          ((Game.demolish g cx cy).map y x).population = (g.map y x).population ∧
          ((Game.demolish g cx cy).map y x).powerLine = (g.map y x).powerLine ∧
          ((Game.demolish g cx cy).map y x).traffic = (g.map y x).traffic ∧
          ((Game.demolish g cx cy).map y x).variant = (g.map y x).variant ∧
          ((Game.demolish g cx cy).map y x).trafficLight = (g.map y x).trafficLight) := by
  have hPA : ∀ a b : Int, Game.plantAt g a b = true ↔
      (sx ≤ a ∧ a ≤ sx + 2 ∧ sy ≤ b ∧ b ≤ sy + 2) := by
    intro a b
    rw [Game.plantAt_iff]
    constructor
    · rintro ⟨hv, ht⟩
      by_contra hnb
      exact hIso a b hv hnb ht
    · intro hb'
      exact ⟨⟨by omega, by omega, by omega, by omega⟩,
        hFp a b (by omega) (by omega) (by omega) (by omega)⟩
  have hsx : Game.plantStartX g cx cy = sx := by
    unfold Game.plantStartX
    have hcx3 : cx = sx ∨ cx = sx + 1 ∨ cx = sx + 2 := by omega
    rcases hcx3 with h | h | h
    · have hn1 : ¬ (0 ≤ cx - 1 ∧ Game.plantAt g (cx - 1) cy = true) := by
        rintro ⟨-, hpa⟩
        rw [hPA] at hpa
        omega
      rw [if_neg hn1]
      exact h
    · subst h
      have hp1 : 0 ≤ sx + 1 - 1 ∧ Game.plantAt g (sx + 1 - 1) cy = true :=
        ⟨by omega, (hPA _ _).mpr ⟨by omega, by omega, by omega, by omega⟩⟩
      have hn2 : ¬ (0 ≤ sx + 1 - 2 ∧ Game.plantAt g (sx + 1 - 2) cy = true) := by
        rintro ⟨-, hpa⟩
        rw [hPA] at hpa
        omega
      rw [if_pos hp1, if_neg hn2]
      omega
    · subst h
      have hp1 : 0 ≤ sx + 2 - 1 ∧ Game.plantAt g (sx + 2 - 1) cy = true :=
        ⟨by omega, (hPA _ _).mpr ⟨by omega, by omega, by omega, by omega⟩⟩
      have hp2 : 0 ≤ sx + 2 - 2 ∧ Game.plantAt g (sx + 2 - 2) cy = true :=
        ⟨by omega, (hPA _ _).mpr ⟨by omega, by omega, by omega, by omega⟩⟩
      rw [if_pos hp1, if_pos hp2]
      omega
  have hsy : Game.plantStartY g sx cy = sy := by
    unfold Game.plantStartY
    have hcy3 : cy = sy ∨ cy = sy + 1 ∨ cy = sy + 2 := by omega
    rcases hcy3 with h | h | h
    · have hn1 : ¬ (0 ≤ cy - 1 ∧ Game.plantAt g sx (cy - 1) = true) := by
        rintro ⟨-, hpa⟩
        rw [hPA] at hpa
        omega
      rw [if_neg hn1]
      exact h
    · subst h
      have hp1 : 0 ≤ sy + 1 - 1 ∧ Game.plantAt g sx (sy + 1 - 1) = true :=
        ⟨by omega, (hPA _ _).mpr ⟨by omega, by omega, by omega, by omega⟩⟩
      have hn2 : ¬ (0 ≤ sy + 1 - 2 ∧ Game.plantAt g sx (sy + 1 - 2) = true) := by
        rintro ⟨-, hpa⟩
        rw [hPA] at hpa
        omega
      rw [if_pos hp1, if_neg hn2]
      omega
    · subst h
      have hp1 : 0 ≤ sy + 2 - 1 ∧ Game.plantAt g sx (sy + 2 - 1) = true :=
        ⟨by omega, (hPA _ _).mpr ⟨by omega, by omega, by omega, by omega⟩⟩
      have hp2 : 0 ≤ sy + 2 - 2 ∧ Game.plantAt g sx (sy + 2 - 2) = true :=
        ⟨by omega, (hPA _ _).mpr ⟨by omega, by omega, by omega, by omega⟩⟩
      rw [if_pos hp1, if_pos hp2]
      omega
  have hvc : g.isValidPosition cx cy := ⟨by omega, by omega, by omega, by omega⟩
  have htc : (g.map cy cx).type = TileType.powerPlant :=
    hFp cx cy (by omega) (by omega) (by omega) (by omega)
  have hdem : Game.demolish g cx cy =
      (Game.clearPlantBlock g sx sy).updatePowerGrid := by
    rw [Game.demolish_on_plant g cx cy hvc htc, hsx, hsy]
  intro x y
  constructor
  · intro hin
    have e := Game.clearPlantBlock_map g sx sy x y h1 h2 h3 h4
    rw [if_pos hin] at e
    refine ⟨?_, ?_, ?_, ?_⟩
    · rw [hdem, CityMap.updatePowerGrid_type, e]
      rfl
    · rw [hdem, CityMap.updatePowerGrid_development, e]
      rfl
    · rw [hdem, CityMap.updatePowerGrid_population, e]
      rfl
    · rw [hdem, CityMap.updatePowerGrid_powerLine, e]
      rfl
  · intro hout
    have e := Game.clearPlantBlock_map g sx sy x y h1 h2 h3 h4
    rw [if_neg hout] at e
    refine ⟨?_, ?_, ?_, ?_, ?_, ?_, ?_⟩
    · rw [hdem, CityMap.updatePowerGrid_type, e]
    · rw [hdem, CityMap.updatePowerGrid_development, e]
    · rw [hdem, CityMap.updatePowerGrid_population, e]
    · rw [hdem, CityMap.updatePowerGrid_powerLine, e]
    · rw [hdem, CityMap.updatePowerGrid_traffic, e]
    · rw [hdem, CityMap.updatePowerGrid_variant, e]
    · rw [hdem, CityMap.updatePowerGrid_trafficLight, e]

/-- Counterexample to claim C7 as stated: with two power plants side by side
(footprints (0..2)×(0..2) and (3..5)×(0..2); both placements are legal since
each 3×3 block is empty at build time), demolishing cell (3,1) of the second
plant walks the left scan into the first plant: footprint cell (4,0) of the
clicked plant is NOT cleared, while cell (1,1) OUTSIDE the clicked plant's
footprint IS cleared. -/
theorem c7_counterexample :
    (c7TwoPlants.map 0 4).type = TileType.powerPlant ∧
      (c7TwoPlants.map 1 1).type = TileType.powerPlant ∧
      (c7TwoPlants.map 1 3).type = TileType.powerPlant ∧
      ((Game.demolish c7TwoPlants 3 1).map 0 4).type = TileType.powerPlant ∧
      ((Game.demolish c7TwoPlants 3 1).map 1 1).type = TileType.empty := by
  have hv : c7TwoPlants.isValidPosition 3 1 := by decide
  have ht : (c7TwoPlants.map 1 3).type = TileType.powerPlant := by decide
  have hd := Game.demolish_on_plant c7TwoPlants 3 1 hv ht
  refine ⟨by decide, by decide, ht, ?_, ?_⟩
  · rw [hd, CityMap.updatePowerGrid_type]
    decide
  · rw [hd, CityMap.updatePowerGrid_type]
    decide

/-- Witness for the amended C7 on the isolated plant of Scenario A
(footprint (2..4)×(2..4) on a 10×10 grid), clicking cell (3,2): footprint
cell (2,2) is fully cleared and corner cell (0,0) keeps every non-`powered`
field. -/
theorem c7_amended_footprint_atomicity_witness :
    (((Game.demolish c4Grid 3 2).map 2 2).type = TileType.empty ∧
      ((Game.demolish c4Grid 3 2).map 2 2).development = 0 ∧
      ((Game.demolish c4Grid 3 2).map 2 2).population = 0 ∧
      ((Game.demolish c4Grid 3 2).map 2 2).powerLine = false) ∧
    (((Game.demolish c4Grid 3 2).map 0 0).type = (c4Grid.map 0 0).type ∧
      ((Game.demolish c4Grid 3 2).map 0 0).development =
        (c4Grid.map 0 0).development ∧
      ((Game.demolish c4Grid 3 2).map 0 0).population =
        (c4Grid.map 0 0).population ∧
      ((Game.demolish c4Grid 3 2).map 0 0).powerLine =
        (c4Grid.map 0 0).powerLine ∧
      ((Game.demolish c4Grid 3 2).map 0 0).traffic =
        (c4Grid.map 0 0).traffic ∧
      ((Game.demolish c4Grid 3 2).map 0 0).variant =
        (c4Grid.map 0 0).variant ∧
      ((Game.demolish c4Grid 3 2).map 0 0).trafficLight =
        (c4Grid.map 0 0).trafficLight) := by
  have h := c7_amended_footprint_atomicity c4Grid 2 2 3 2 (by decide)
    (by decide) (by decide) (by decide)
    (by
      intro x y hx1 hx2 hy1 hy2
      have ex : x = 2 ∨ x = 3 ∨ x = 4 := by omega
      have ey : y = 2 ∨ y = 3 ∨ y = 4 := by omega
      rcases ex with h | h | h <;> rcases ey with h' | h' | h' <;>
        subst h <;> subst h' <;> decide)
    (by
      intro x y hv hnb
      have hw : ((c4Grid.width : Nat) : Int) = 10 := by decide
      have hh : ((c4Grid.height : Nat) : Int) = 10 := by decide
      obtain ⟨ha, hb', hc, hd'⟩ := hv
      rw [hw] at hb'
      rw [hh] at hd'
      interval_cases x <;> interval_cases y <;>
        first
          | exact absurd (by omega) hnb
          | decide)
    (by decide) (by decide) (by decide) (by decide)
  exact ⟨(h 2 2).1 (by decide), (h 0 0).2 (by decide)⟩
